import Mathlib

/-!
Shallow embedding of the snake-game repository (models and controller step)
and verification of its specified invariants.

The embedding follows the Python source:
* `snake_game/models/enums.py`      → `Direction`, `GameState`
* `snake_game/models/snake.py`      → `Snake` and its operations
* `snake_game/models/game_state.py` → `GameStateManager`
* `snake_game/models/score.py`      → `ScoreManager` (file I/O abstracted
  as an explicit backing-store content value)
* `snake_game/models/fruit.py`      → `Fruit` (randomness abstracted as an
  explicit entropy stream; the unbounded `while True` loop is modelled as
  fuelled recursion returning `Option`)
* `snake_game/controllers/game_controller.py` → `GameController._move_snake`
  and its helpers (audio and rendering side effects are out of scope).
-/

namespace SnakeGame

/-- The `Direction` enum from `enums.py`. -/
inductive Direction where
  | up
  | down
  | left
  | right
deriving DecidableEq, Repr

/-- The `(dx, dy)` value carried by each `Direction` enum member. -/
def Direction.value : Direction → Int × Int
  | .up => (0, -1)
  | .down => (0, 1)
  | .left => (-1, 0)
  | .right => (1, 0)

/-- The `GameState` enum from `enums.py`. -/
inductive GameState where
  | splash
  | playing
  | game_over
  | high_scores
  | confirm_reset
deriving DecidableEq, Repr

/-- The `Snake` object: `segments` (head-first), the applied `direction`,
and the pending `next_direction`. -/
structure Snake where
  segments : List (Int × Int)
  direction : Direction
  next_direction : Direction
deriving DecidableEq, Repr

/-- Segment layout built by `Snake.__init__` / `Snake.reset`:
`[(start_x - i, start_y) for i in range(initial_length)]`. -/
def initSegments (initial_length : Nat) (start_x start_y : Int) : List (Int × Int) :=
  (List.range initial_length).map fun (i : Nat) => (start_x - (i : Int), start_y)

/-- The `Snake.__init__(initial_length, start_x, start_y)`. -/
def Snake.init (initial_length : Nat) (start_x start_y : Int) : Snake :=
  { segments := initSegments initial_length start_x start_y
    direction := .right
    next_direction := .right }

/-- The `Snake.reset`: clears the segments and rebuilds the same layout as the
constructor, resetting both direction fields to RIGHT. -/
def Snake.reset (_s : Snake) (initial_length : Nat) (start_x start_y : Int) : Snake :=
  Snake.init initial_length start_x start_y

/-- The `head` property: `segments[0] if segments else (0, 0)`. -/
def Snake.head (s : Snake) : Int × Int :=
  s.segments.head?.getD (0, 0)

/-- The `length` property: `len(segments)`. -/
def Snake.length (s : Snake) : Nat :=
  s.segments.length

/-- The `opposite_directions` dict in `Snake.set_direction`. -/
def opposite_directions : Direction → Direction
  | .up => .down
  | .down => .up
  | .left => .right
  | .right => .left

/-- The `Snake.set_direction(new_direction)`: rejects the exact opposite of the
currently applied `direction`; on acceptance stores `new_direction` into
`next_direction` and returns `True`. Returns `(return value, new state)`. -/
def Snake.set_direction (s : Snake) (new_direction : Direction) : Bool × Snake :=
  if new_direction ≠ opposite_directions s.direction then
    (true, { s with next_direction := new_direction })
  else
    (false, s)

/-- The `Snake.move(grow)`: applies `next_direction`, prepends the new head, and
pops the tail unless growing. Returns `(new state, new head)`. -/
def Snake.move (s : Snake) (grow : Bool) : Snake × (Int × Int) :=
  let dir := s.next_direction
  let h := Snake.head s
  let d := dir.value
  let new_head := (h.1 + d.1, h.2 + d.2)
  let segs := new_head :: s.segments
  let segs' := if grow then segs else segs.dropLast
  ({ s with direction := dir, segments := segs' }, new_head)

/-- The `Snake.check_self_collision`: head appears in `segments[1:]`. -/
def Snake.check_self_collision (s : Snake) : Bool :=
  decide (Snake.head s ∈ s.segments.tail)

/-- The `Snake.check_wall_collision(grid_width, grid_height)`. -/
def Snake.check_wall_collision (s : Snake) (grid_width grid_height : Int) : Bool :=
  let h := Snake.head s
  decide (h.1 < 0) || decide (h.1 ≥ grid_width) || decide (h.2 < 0) || decide (h.2 ≥ grid_height)

/-- The `GameStateManager` object from `game_state.py`. `_previous_state`
starts as `None`. -/
structure GameStateManager where
  current_state : GameState
  previous_state : Option GameState
deriving DecidableEq, Repr

/-- The `GameStateManager.__init__(initial_state)`. -/
def GameStateManager.init (initial_state : GameState) : GameStateManager :=
  { current_state := initial_state, previous_state := none }

/-- The `GameStateManager.set_state(new_state)`: records history only when the
state actually changes. -/
def GameStateManager.set_state (m : GameStateManager) (new_state : GameState) : GameStateManager :=
  if new_state ≠ m.current_state then
    { current_state := new_state, previous_state := some m.current_state }
  else
    m

/-- The `GameStateManager.is_state(state)`. -/
def GameStateManager.is_state (m : GameStateManager) (state : GameState) : Bool :=
  decide (m.current_state = state)

/-- The `GameStateManager.reset()`: unconditionally copies `current_state` into
`previous_state` and returns to SPLASH. -/
def GameStateManager.reset (m : GameStateManager) : GameStateManager :=
  { current_state := .splash, previous_state := some m.current_state }

/-! ## ScoreManager (`score.py`)

File I/O is abstracted: the content of the backing store file is an explicit
`StoreContent` value, and a successful write is recorded in the `stored`
field. Python's `sorted(·, reverse=True)` is modelled by insertion sort with
the `≥` relation. -/

/-- A JSON value as far as `_load_high_scores` distinguishes them: a list of
integers (the expected shape), or any value that is not a sequence (a bare
number, `null`, a boolean), on which Python's `sorted` raises `TypeError`. -/
inductive JsonVal where
  | intList (l : List Int)
  | nonList
deriving DecidableEq, Repr

/-- The observable content of the high-score backing file: absent, unreadable
(`IOError` on open/read), not valid JSON (`json.JSONDecodeError`), or a
successfully parsed JSON value. -/
inductive StoreContent where
  | missing
  | unreadable
  | malformed
  | json (v : JsonVal)
deriving DecidableEq, Repr

/-- Python `sorted(l, reverse=True)` on a list of integers. -/
def sortedDesc (l : List Int) : List Int :=
  l.insertionSort (· ≥ ·)

/-- The `ScoreManager` object. `stored` is the last value successfully
written to the backing store (`none` if nothing was written yet). -/
structure ScoreManager where
  max_scores : Nat
  current_score : Int
  high_scores : List Int
  stored : Option (List Int)
deriving DecidableEq, Repr

/-- The `ScoreManager._load_high_scores`: returns the default all-zero list when
the file is missing or reading/parsing fails; sorts descending and truncates
to `max_scores` when a list was parsed. A parsed non-sequence value reaches
`sorted`, whose `TypeError` is not caught by the `except` clause and
propagates (modelled as `Except.error`). -/
def load_high_scores (max_scores : Nat) : StoreContent → Except String (List Int)
  | .missing => .ok (List.replicate max_scores 0)
  | .unreadable => .ok (List.replicate max_scores 0)
  | .malformed => .ok (List.replicate max_scores 0)
  | .json (.intList l) => .ok ((sortedDesc l).take max_scores)
  | .json .nonList => .error "TypeError"

/-- The `ScoreManager.__init__(scores_file, max_scores)`: loads the high scores
from the backing store; propagates the load failure when loading raises. -/
def ScoreManager.init (max_scores : Nat) (content : StoreContent) :
    Except String ScoreManager :=
  match load_high_scores max_scores content with
  | .ok hs => .ok { max_scores, current_score := 0, high_scores := hs, stored := none }
  | .error e => .error e

/-- The `ScoreManager.add_points(points)`. -/
def ScoreManager.add_points (m : ScoreManager) (points : Int) : ScoreManager :=
  { m with current_score := m.current_score + points }

/-- The `ScoreManager.reset_current_score()`. -/
def ScoreManager.reset_current_score (m : ScoreManager) : ScoreManager :=
  { m with current_score := 0 }

/-- The `ScoreManager.update_high_scores(score)`: `score = none` models Python's
defaulted `score=None` which falls back to `current_score`. Positive scores
are appended, the list re-sorted descending and truncated, and the result
persisted; the return value is membership of the score in the truncated
list. Non-positive scores are ignored. Returns `(return value, new state)`. -/
def ScoreManager.update_high_scores (m : ScoreManager) (score : Option Int) :
    Bool × ScoreManager :=
  let s := score.getD m.current_score
  if s > 0 then
    let hs := (sortedDesc (m.high_scores ++ [s])).take m.max_scores
    (decide (s ∈ hs.take m.max_scores), { m with high_scores := hs, stored := some hs })
  else
    (false, m)

/-- The `ScoreManager.reset_high_scores()`. -/
def ScoreManager.reset_high_scores (m : ScoreManager) : ScoreManager :=
  let hs := List.replicate m.max_scores 0
  { m with high_scores := hs, stored := some hs }

/-- Python `min` on a non-empty list of integers (`min([])` raises, so the
`[]` case is arbitrary; theorems about it assume non-emptiness). -/
def pyMin : List Int → Int
  | [] => 0
  | x :: xs => xs.foldl min x

/-- The `ScoreManager.is_high_score(score)`: `score = none` models the defaulted
`score=None` falling back to `current_score`. -/
def ScoreManager.is_high_score (m : ScoreManager) (score : Option Int) : Bool :=
  let s := score.getD m.current_score
  decide (s > pyMin m.high_scores) || decide ((0 : Int) ∈ m.high_scores)

/-- The `ScoreManager.get_high_scores()`. -/
def ScoreManager.get_high_scores (m : ScoreManager) : List Int :=
  m.high_scores

/-- The mutating `ScoreManager` operations, used to range over all states
reachable from construction. -/
inductive ScoreOp where
  | update (score : Option Int)
  | resetScores
  | addPoints (points : Int)
  | resetCurrent
deriving DecidableEq, Repr

/-- Apply one `ScoreOp` to a `ScoreManager`. -/
def applyScoreOp (op : ScoreOp) (m : ScoreManager) : ScoreManager :=
  match op with
  | .update s => (m.update_high_scores s).2
  | .resetScores => m.reset_high_scores
  | .addPoints p => m.add_points p
  | .resetCurrent => m.reset_current_score

/-- Run a sequence of `ScoreOp`s from a starting state. -/
def runScoreOps (ops : List ScoreOp) (m : ScoreManager) : ScoreManager :=
  ops.foldl (fun m op => applyScoreOp op m) m

/-! ## Fruit (`fruit.py`)

`random.randint(a, b)` draws are abstracted as an entropy stream
`e : Nat → Nat × Nat`: the `i`-th loop iteration turns `e i` into a cell of
the interior by taking each component modulo the interior side length —
every value of the stream yields a cell `randint(1, W-2) × randint(1, H-2)`
could produce, and every such cell is reachable. The unbounded `while True`
loop is modelled as fuelled recursion returning `none` when the fuel runs
out, so statements about non-termination become statements quantified over
all fuels. The cosmetic `fruit_type` re-roll carries no gameplay state and
is not modelled. -/

/-- The cell sampled by one loop iteration of `Fruit.spawn` from one entropy
value: `x = randint(1, grid_width - 2)`, `y = randint(1, grid_height - 2)`. -/
def sampleCell (grid_width grid_height : Nat) (en : Nat × Nat) : Int × Int :=
  (1 + (en.1 % (grid_width - 2) : Nat), 1 + (en.2 % (grid_height - 2) : Nat))

/-- The `while True` sampling loop of `Fruit.spawn`, fuelled: argument `i`
is the index of the next entropy value to consume. -/
def spawnLoop (grid_width grid_height : Nat) (occupied : List (Int × Int))
    (e : Nat → Nat × Nat) : Nat → Nat → Option (Int × Int)
  | 0, _ => none
  | fuel + 1, i =>
    let c := sampleCell grid_width grid_height (e i)
    if c ∉ occupied then some c
    else spawnLoop grid_width grid_height occupied e fuel (i + 1)

/-- The `Fruit` object (`fruit_type`/`points_value` are cosmetic and out of
scope). -/
structure Fruit where
  grid_width : Nat
  grid_height : Nat
  position : Int × Int
deriving DecidableEq, Repr

/-- The `Fruit.spawn(occupied_positions)`: runs the sampling loop and stores the
found cell in `position`; `none` when the loop fails to return within
`fuel` iterations. -/
def Fruit.spawn (f : Fruit) (occupied : List (Int × Int)) (e : Nat → Nat × Nat)
    (fuel : Nat) : Option (Fruit × (Int × Int)) :=
  match spawnLoop f.grid_width f.grid_height occupied e fuel 0 with
  | some p => some ({ f with position := p }, p)
  | none => none

/-- The `Fruit.is_eaten_by(position)`. -/
def Fruit.is_eaten_by (f : Fruit) (position : Int × Int) : Bool :=
  decide (f.position = position)

/-! ## GameController (`game_controller.py`)

Only the simulation-step logic is modelled; pygame, audio and rendering are
pure side-effect sinks. `GameConstants` come from `utils/constants.py`. -/

/-- The `GameConstants.GRID_WIDTH`. -/
def GRID_WIDTH : Nat := 40

/-- The `GameConstants.GRID_HEIGHT`. -/
def GRID_HEIGHT : Nat := 30

/-- The `GameConstants.INITIAL_SNAKE_LENGTH`. -/
def INITIAL_SNAKE_LENGTH : Nat := 5

/-- The `GameConstants.INITIAL_SPEED` (milliseconds between moves). -/
def INITIAL_SPEED : Int := 200

/-- The `GameConstants.SPEED_INCREASE`. -/
def SPEED_INCREASE : Int := 10

/-- The `GameConstants.MIN_SPEED`. -/
def MIN_SPEED : Int := 50

/-- The `GameConstants.POINTS_PER_FRUIT`. -/
def POINTS_PER_FRUIT : Int := 4

/-- The game-logic state owned by `GameController` (screen, clock, renderer,
input handler and audio manager carry no game state). -/
structure GameController where
  snake : Snake
  fruit : Fruit
  state_manager : GameStateManager
  score_manager : ScoreManager
  speed : Int
deriving DecidableEq, Repr

/-- The `GameController._game_over()`: transitions to GAME_OVER and folds the
current score into the high scores (audio effects out of scope). -/
def GameController.game_over (g : GameController) : GameController :=
  let sm := g.state_manager.set_state .game_over
  let scm := (g.score_manager.update_high_scores none).2
  { g with state_manager := sm, score_manager := scm }

/-- The `GameController._eat_fruit()`: adds points, ramps the speed down to its
floor, and respawns the fruit avoiding the (already moved) snake body;
`none` when the respawn loop fails to return within `fuel` iterations. -/
def GameController.eat_fruit (g : GameController) (e : Nat → Nat × Nat)
    (fuel : Nat) : Option GameController :=
  let scm := g.score_manager.add_points POINTS_PER_FRUIT
  let speed' := max MIN_SPEED (g.speed - SPEED_INCREASE)
  match g.fruit.spawn g.snake.segments e fuel with
  | some (f', _) =>
    some { g with score_manager := scm, speed := speed', fruit := f' }
  | none => none

/-- The local `next_head_pos` of `GameController._move_snake`: where the
head would land, computed from `next_direction` before mutating the snake. -/
def GameController.next_head_pos (g : GameController) : Int × Int :=
  (g.snake.head.1 + g.snake.next_direction.value.1,
   g.snake.head.2 + g.snake.next_direction.value.2)

/-- The local `will_eat_fruit` of `GameController._move_snake`: fruit
occupancy at the prospective head cell, checked before mutating the snake. -/
def GameController.will_eat_fruit (g : GameController) : Bool :=
  g.fruit.is_eaten_by g.next_head_pos

/-- The snake after the `self.snake.move(grow=will_eat_fruit)` call of
`GameController._move_snake`. -/
def GameController.moved_snake (g : GameController) : Snake :=
  (g.snake.move g.will_eat_fruit).1

/-- The `GameController._move_snake()`: computes the prospective head cell from
`next_direction`, checks fruit occupancy there before mutating the snake,
moves the snake with `grow = will_eat_fruit`, then checks wall collision,
then self collision — each collision ends the tick via `_game_over` — and
only then applies the fruit-eating effects. -/
def GameController.move_snake (g : GameController) (e : Nat → Nat × Nat)
    (fuel : Nat) : Option GameController :=
  let snake' := g.moved_snake
  let g' := { g with snake := snake' }
  if snake'.check_wall_collision (GRID_WIDTH : Int) (GRID_HEIGHT : Int) then
    some g'.game_over
  else if snake'.check_self_collision then
    some g'.game_over
  else if g.will_eat_fruit then
    g'.eat_fruit e fuel
  else
    some g'

/-! ## Helper lemmas -/

/-- Length of the segment list after one `move`, by the `grow` flag. -/
theorem Snake.move_length (s : Snake) (g : Bool) :
    ((s.move g).1.segments.length) =
      if g then s.segments.length + 1 else s.segments.length := by
  cases g <;> simp [Snake.move]

/-- Run a sequence of `move` calls, keeping only the state. -/
def runMoves (gs : List Bool) (s : Snake) : Snake :=
  gs.foldl (fun s g => (s.move g).1) s

/-- A `move` never empties a non-empty snake. -/
theorem runMoves_pos (gs : List Bool) (s : Snake) (h : 1 ≤ s.segments.length) :
    1 ≤ (runMoves gs s).segments.length := by
  induction gs generalizing s with
  | nil => simpa [runMoves] using h
  | cons g gs ih =>
    have h' : 1 ≤ ((s.move g).1.segments.length) := by
      rw [Snake.move_length]
      cases g <;> simp <;> omega
    simpa [runMoves] using ih _ h'

/-! ## Claims -/

/-- C1: `Snake.move` conserves length and never empties the snake:
`move(grow=false)` leaves `len(segments)` unchanged, `move(grow=true)`
increases it by exactly 1, `reset` rebuilds the constructor state, and from
any snake constructed (or reset) with `initial_length ≥ 1` every sequence of
`move` calls keeps `len(segments) ≥ 1`. -/
theorem snake_move_length_spec (s : Snake) (gs : List Bool) (L : Nat) (x y : Int)
    (hL : 1 ≤ L) :
    ((s.move false).1.segments.length = s.segments.length)
    ∧ ((s.move true).1.segments.length = s.segments.length + 1)
    ∧ Snake.reset s L x y = Snake.init L x y
    ∧ 1 ≤ (runMoves gs (Snake.init L x y)).segments.length := by
  refine ⟨by rw [Snake.move_length]; simp, by rw [Snake.move_length]; simp, rfl, ?_⟩
  apply runMoves_pos
  have hlen : (Snake.init L x y).segments.length = L := by
    simp [Snake.init, initSegments]
  omega

/-- Witness for C1 at a concrete snake of length 1 and the move sequence
`[grow, no-grow]`. -/
theorem snake_move_length_spec_witness :
    (1 : Nat) ≤ 1
    ∧ (((Snake.init 1 0 0).move false).1.segments.length
          = (Snake.init 1 0 0).segments.length)
    ∧ (((Snake.init 1 0 0).move true).1.segments.length
          = (Snake.init 1 0 0).segments.length + 1)
    ∧ Snake.reset (Snake.init 1 0 0) 1 0 0 = Snake.init 1 0 0
    ∧ 1 ≤ (runMoves [true, false] (Snake.init 1 0 0)).segments.length :=
  ⟨le_refl 1, snake_move_length_spec (Snake.init 1 0 0) [true, false] 1 0 0 (le_refl 1)⟩

/-- C7: `set_direction(d)` accepts `d` exactly when it is not the direct
opposite of the currently applied `direction` (independently of the pending
`next_direction`); acceptance stores `d` into `next_direction` only, and
rejection changes nothing; `direction` and `segments` are never touched. -/
theorem set_direction_spec (s : Snake) (d nd' : Direction) :
    ((s.set_direction d).1 = !decide (d = opposite_directions s.direction))
    ∧ ((s.set_direction d).2 =
        if d = opposite_directions s.direction then s
        else { s with next_direction := d })
    ∧ ((s.set_direction d).2.direction = s.direction)
    ∧ ((s.set_direction d).2.segments = s.segments)
    ∧ (({ s with next_direction := nd' } : Snake).set_direction d).1
        = (s.set_direction d).1 := by
  by_cases h : d = opposite_directions s.direction
  · simp [Snake.set_direction, h]
  · simp [Snake.set_direction, h]

/-- C10 counterexample: from the reachable state with `current_state =
SPLASH` and `previous_state = PLAYING`, `reset()` changes `previous_state`
even though `current_state` does not change, refuting "previous_state only
updates when current_state actually changes" for the `reset` operation. -/
theorem reset_updates_history_counterexample :
    let m := ((GameStateManager.init .splash).set_state .playing).set_state .splash
    (GameStateManager.reset m).current_state = m.current_state
    ∧ (GameStateManager.reset m).previous_state ≠ m.previous_state := by
  decide

/-- C10 (amended): for `set_state`, `previous_state` only updates when
`current_state` actually changes — setting the current state again is a
no-op for both fields, and a second identical `set_state` in a row is a
no-op; `reset`, by contrast, unconditionally records `current_state` into
`previous_state` and returns to SPLASH. -/
theorem set_state_history_spec (m : GameStateManager) (s : GameState) :
    ((m.set_state s).set_state s = m.set_state s)
    ∧ ((m.set_state s).previous_state ≠ m.previous_state →
        (m.set_state s).current_state ≠ m.current_state)
    ∧ (m.current_state = s → m.set_state s = m)
    ∧ ((m.reset).current_state = .splash)
    ∧ ((m.reset).previous_state = some m.current_state) := by
  by_cases h : s = m.current_state
  · simp [GameStateManager.set_state, GameStateManager.reset, h]
  · refine ⟨?_, ?_, ?_, rfl, rfl⟩
    · simp [GameStateManager.set_state, h]
    · intro _
      simp [GameStateManager.set_state, h]
    · intro hc
      exact absurd hc.symm h

/-- Witness for C10 (amended) at a concrete manager and state. -/
theorem set_state_history_spec_witness :
    (((⟨.splash, none⟩ : GameStateManager).set_state .playing).set_state .playing
        = (⟨.splash, none⟩ : GameStateManager).set_state .playing)
    ∧ (((⟨.splash, none⟩ : GameStateManager).set_state .playing).previous_state
          ≠ (⟨.splash, none⟩ : GameStateManager).previous_state →
        ((⟨.splash, none⟩ : GameStateManager).set_state .playing).current_state
          ≠ (⟨.splash, none⟩ : GameStateManager).current_state)
    ∧ ((⟨.splash, none⟩ : GameStateManager).current_state = .playing →
        (⟨.splash, none⟩ : GameStateManager).set_state .playing
          = (⟨.splash, none⟩ : GameStateManager))
    ∧ (((⟨.splash, none⟩ : GameStateManager).reset).current_state = .splash)
    ∧ (((⟨.splash, none⟩ : GameStateManager).reset).previous_state
        = some (⟨.splash, none⟩ : GameStateManager).current_state) :=
  set_state_history_spec ⟨.splash, none⟩ .playing

/-- C4 counterexample: a backing file whose content is valid JSON but not a
sequence (e.g. the file `5`) parses successfully, so the `except
(json.JSONDecodeError, IOError)` clause does not protect the subsequent
`sorted` call; the load raises `TypeError` instead of yielding the all-zero
default. -/
theorem load_high_scores_raises_counterexample :
    load_high_scores 5 (.json .nonList) ≠ .ok (List.replicate 5 0)
    ∧ load_high_scores 5 (.json .nonList) = .error "TypeError" :=
  ⟨by simp [load_high_scores], rfl⟩

/-- C4 (amended): loading never raises for a missing file, a read failure
(`IOError`), a JSON parse failure (`json.JSONDecodeError`) — all three
silently yield the all-zero default list of length `max_scores` — and never
raises for a parsed integer list; but content parsing to a non-sequence JSON
value raises an uncaught `TypeError` from `sorted`. -/
theorem load_high_scores_spec (max : Nat) (l : List Int) :
    load_high_scores max .missing = .ok (List.replicate max 0)
    ∧ load_high_scores max .unreadable = .ok (List.replicate max 0)
    ∧ load_high_scores max .malformed = .ok (List.replicate max 0)
    ∧ load_high_scores max (.json (.intList l)) = .ok ((sortedDesc l).take max)
    ∧ (List.replicate max 0).length = max :=
  ⟨rfl, rfl, rfl, rfl, List.length_replicate max 0⟩

/-- On the 3×3 grid the interior is the single cell `(1,1)`; when it is
occupied, every sample of the spawn loop is occupied, so the loop never
returns, whatever the entropy and the fuel. -/
theorem spawnLoop_full_board_none :
    ∀ fuel i, spawnLoop 3 3 [(1, 1)] (fun _ => (0, 0)) fuel i = none := by
  intro fuel
  induction fuel with
  | zero => intro i; rfl
  | succ n ih =>
    intro i
    have hcell : sampleCell 3 3 (0, 0) = (1, 1) := by decide
    simp only [spawnLoop, hcell]
    simpa using ih (i + 1)

/-- C5 counterexample: `Fruit.spawn` has no bounded-tries fallback — on the
3×3 grid with the single interior cell occupied, the sampling loop returns
for no amount of fuel, so `spawn` does not terminate on a full board. -/
theorem fruit_spawn_full_board_counterexample :
    ¬ ∃ (fuel : Nat) (r : Fruit × (Int × Int)),
        (Fruit.mk 3 3 (0, 0)).spawn [(1, 1)] (fun _ => (0, 0)) fuel = some r := by
  rintro ⟨fuel, r, h⟩
  rw [Fruit.spawn, spawnLoop_full_board_none fuel 0] at h
  exact Option.noConfusion h

/-- C5 (amended): `Fruit.spawn` terminates precisely by random luck, not by
fallback: the loop returns an unoccupied cell as soon as the entropy stream
yields an unoccupied sample within the available iterations (in particular
whenever some interior cell is free and the stream hits it), but there is no
bounded-tries exhaustive-search fallback, so on a fully occupied interior it
never returns. -/
theorem spawn_returns_on_free_sample (grid_width grid_height : Nat)
    (occ : List (Int × Int)) (e : Nat → Nat × Nat) (fuel i : Nat)
    (h : ∃ j, i ≤ j ∧ j < i + fuel ∧ sampleCell grid_width grid_height (e j) ∉ occ) :
    ∃ p, spawnLoop grid_width grid_height occ e fuel i = some p ∧ p ∉ occ := by
  induction fuel generalizing i with
  | zero =>
    obtain ⟨j, h1, h2, _⟩ := h
    omega
  | succ n ih =>
    by_cases hc : sampleCell grid_width grid_height (e i) ∈ occ
    · obtain ⟨j, h1, h2, h3⟩ := h
      have hji : j ≠ i := fun hj => h3 (hj ▸ hc)
      obtain ⟨p, hp, hpo⟩ := ih (i + 1) ⟨j, by omega, by omega, h3⟩
      refine ⟨p, ?_, hpo⟩
      simpa [spawnLoop, hc] using hp
    · exact ⟨_, by simp [spawnLoop, hc], hc⟩

/-- Witness for C5 (amended): on the 4×4 grid with nothing occupied, the
constant-zero entropy stream hits the free cell `(1,1)` immediately. -/
theorem spawn_returns_on_free_sample_witness :
    (∃ j, 0 ≤ j ∧ j < 0 + 1 ∧
        sampleCell 4 4 ((fun _ => (0, 0)) j) ∉ ([] : List (Int × Int)))
    ∧ ∃ p, spawnLoop 4 4 [] (fun _ => (0, 0)) 1 0 = some p
        ∧ p ∉ ([] : List (Int × Int)) :=
  ⟨⟨0, le_refl 0, Nat.lt_succ_self 0, by decide⟩,
    spawn_returns_on_free_sample 4 4 [] (fun _ => (0, 0)) 1 0
      ⟨0, le_refl 0, Nat.lt_succ_self 0, by decide⟩⟩

/-- Every cell returned by the sampling loop lies in the interior and avoids
the occupied list. -/
theorem spawnLoop_legal (grid_width grid_height : Nat) (occ : List (Int × Int))
    (e : Nat → Nat × Nat) (hW : 3 ≤ grid_width) (hH : 3 ≤ grid_height) :
    ∀ fuel i p, spawnLoop grid_width grid_height occ e fuel i = some p →
      1 ≤ p.1 ∧ p.1 ≤ (grid_width : Int) - 2
      ∧ 1 ≤ p.2 ∧ p.2 ≤ (grid_height : Int) - 2 ∧ p ∉ occ := by
  intro fuel
  induction fuel with
  | zero => intro i p h; exact Option.noConfusion h
  | succ n ih =>
    intro i p h
    by_cases hc : sampleCell grid_width grid_height (e i) ∈ occ
    · exact ih (i + 1) p (by simpa [spawnLoop, hc] using h)
    · have hp : p = sampleCell grid_width grid_height (e i) := by
        simp [spawnLoop, hc] at h
        exact h.symm
      subst hp
      have hx : (e i).1 % (grid_width - 2) < grid_width - 2 :=
        Nat.mod_lt _ (by omega)
      have hy : (e i).2 % (grid_height - 2) < grid_height - 2 :=
        Nat.mod_lt _ (by omega)
      refine ⟨?_, ?_, ?_, ?_, hc⟩ <;> simp [sampleCell] <;> omega

/-- C6: whenever `Fruit.spawn` returns, the returned position (also stored
in the fruit) lies strictly inside the border — `1 ≤ x ≤ W-2`,
`1 ≤ y ≤ H-2` — and is not a member of the occupied list passed in. -/
theorem fruit_spawn_legal (f : Fruit) (occ : List (Int × Int))
    (e : Nat → Nat × Nat) (fuel : Nat) (f' : Fruit) (p : Int × Int)
    (hW : 3 ≤ f.grid_width) (hH : 3 ≤ f.grid_height)
    (h : f.spawn occ e fuel = some (f', p)) :
    f'.position = p
    ∧ 1 ≤ p.1 ∧ p.1 ≤ (f.grid_width : Int) - 2
    ∧ 1 ≤ p.2 ∧ p.2 ≤ (f.grid_height : Int) - 2
    ∧ p ∉ occ := by
  rw [Fruit.spawn] at h
  cases hl : spawnLoop f.grid_width f.grid_height occ e fuel 0 with
  | none => rw [hl] at h; exact Option.noConfusion h
  | some q =>
    rw [hl] at h
    have hq : ({ f with position := q }, q) = (f', p) := Option.some.inj h
    have hf' : f' = { f with position := q } := (congrArg Prod.fst hq).symm
    have hp : p = q := (congrArg Prod.snd hq).symm
    have hleg := spawnLoop_legal f.grid_width f.grid_height occ e hW hH fuel 0 q hl
    rw [hf', hp]
    exact ⟨rfl, hleg.1, hleg.2.1, hleg.2.2.1, hleg.2.2.2.1, hleg.2.2.2.2⟩

/-- Witness for C6 at a concrete spawn on the 4×4 grid avoiding `(1,1)`. -/
theorem fruit_spawn_legal_witness :
    3 ≤ (Fruit.mk 4 4 (0, 0)).grid_width
    ∧ 3 ≤ (Fruit.mk 4 4 (0, 0)).grid_height
    ∧ ((Fruit.mk 4 4 (0, 0)).spawn [(1, 1)] (fun _ => (1, 1)) 1
        = some (Fruit.mk 4 4 (2, 2), (2, 2)))
    ∧ (Fruit.mk 4 4 (2, 2)).position = ((2 : Int), (2 : Int))
    ∧ 1 ≤ ((2 : Int), (2 : Int)).1
    ∧ ((2 : Int), (2 : Int)).1 ≤ ((Fruit.mk 4 4 (0, 0)).grid_width : Int) - 2
    ∧ 1 ≤ ((2 : Int), (2 : Int)).2
    ∧ ((2 : Int), (2 : Int)).2 ≤ ((Fruit.mk 4 4 (0, 0)).grid_height : Int) - 2
    ∧ ((2 : Int), (2 : Int)) ∉ ([((1 : Int), (1 : Int))] : List (Int × Int)) :=
  ⟨by decide, by decide, by decide,
    fruit_spawn_legal (Fruit.mk 4 4 (0, 0)) [(1, 1)] (fun _ => (1, 1)) 1
      (Fruit.mk 4 4 (2, 2)) (2, 2) (by decide) (by decide) (by decide)⟩

/-! ## ScoreManager lemmas -/

/-- The `sortedDesc` output is sorted descending. -/
theorem sortedDesc_sorted (l : List Int) : List.Sorted (· ≥ ·) (sortedDesc l) :=
  List.sorted_insertionSort (· ≥ ·) l

/-- A prefix of a descending-sorted list is descending-sorted. -/
theorem sorted_take {l : List Int} (h : List.Sorted (· ≥ ·) l) (n : Nat) :
    List.Sorted (· ≥ ·) (l.take n) :=
  List.Pairwise.sublist (List.take_sublist n l) h

/-- The shape invariant carried by every reachable `ScoreManager` state:
the high-score list never exceeds `max_scores` entries and is always sorted
descending. -/
def ScoreInv (m : ScoreManager) : Prop :=
  m.high_scores.length ≤ m.max_scores ∧ List.Sorted (· ≥ ·) m.high_scores

/-- Every `ScoreManager` operation preserves `max_scores`. -/
theorem applyScoreOp_max (op : ScoreOp) (m : ScoreManager) :
    (applyScoreOp op m).max_scores = m.max_scores := by
  cases op with
  | update s =>
    simp only [applyScoreOp, ScoreManager.update_high_scores]
    split <;> rfl
  | resetScores => rfl
  | addPoints p => rfl
  | resetCurrent => rfl

/-- Every `ScoreManager` operation preserves the shape invariant. -/
theorem ScoreInv_applyOp (op : ScoreOp) (m : ScoreManager) (h : ScoreInv m) :
    ScoreInv (applyScoreOp op m) := by
  cases op with
  | update s =>
    simp only [applyScoreOp, ScoreManager.update_high_scores]
    split
    · refine ⟨?_, sorted_take (sortedDesc_sorted _) _⟩
      simpa [List.length_take] using Nat.min_le_left _ _
    · exact h
  | resetScores =>
    constructor
    · simp [applyScoreOp, ScoreManager.reset_high_scores]
    · simp [applyScoreOp, ScoreManager.reset_high_scores, List.Sorted]
  | addPoints p => exact h
  | resetCurrent => exact h

/-- Sequences of `ScoreManager` operations preserve the shape invariant and
`max_scores`. -/
theorem ScoreInv_runOps (ops : List ScoreOp) (m : ScoreManager) (h : ScoreInv m) :
    ScoreInv (runScoreOps ops m)
    ∧ (runScoreOps ops m).max_scores = m.max_scores := by
  induction ops generalizing m with
  | nil => exact ⟨h, rfl⟩
  | cons op ops ih =>
    have h1 := ScoreInv_applyOp op m h
    have h2 := ih (applyScoreOp op m) h1
    have h3 : (runScoreOps ops (applyScoreOp op m)).max_scores = m.max_scores := by
      rw [h2.2, applyScoreOp_max]
    exact ⟨h2.1, h3⟩

/-- Successful construction establishes the shape invariant. -/
theorem ScoreInv_init (max : Nat) (c : StoreContent) (m : ScoreManager)
    (h : ScoreManager.init max c = .ok m) :
    ScoreInv m ∧ m.max_scores = max := by
  cases c with
  | missing =>
    cases h
    exact ⟨⟨by simp, by simp [List.Sorted]⟩, rfl⟩
  | unreadable =>
    cases h
    exact ⟨⟨by simp, by simp [List.Sorted]⟩, rfl⟩
  | malformed =>
    cases h
    exact ⟨⟨by simp, by simp [List.Sorted]⟩, rfl⟩
  | json v =>
    cases v with
    | intList l =>
      cases h
      refine ⟨⟨?_, sorted_take (sortedDesc_sorted _) _⟩, rfl⟩
      simpa [List.length_take] using Nat.min_le_left _ _
    | nonList => exact Except.noConfusion h

/-- C3 counterexample: constructing a `ScoreManager` from a persisted list
with fewer than `max_scores` entries (here `[7]` with `max_scores = 5`)
yields a `high_scores` of length 1, not `max_scores` — the loader truncates
but never pads. -/
theorem score_shape_counterexample :
    ScoreManager.init 5 (.json (.intList [7]))
      = .ok { max_scores := 5, current_score := 0, high_scores := [7], stored := none }
    ∧ ¬ (([7] : List Int).length = 5) :=
  ⟨rfl, by decide⟩

/-- C3 (amended): in every state reachable from construction by
`update_high_scores`/`reset_high_scores`/score operations, `high_scores`
has at most `max_scores` entries and is sorted descending; it has exactly
`max_scores` entries after every `reset_high_scores` and after construction
from a missing, unreadable or corrupt store (a persisted list shorter than
`max_scores` is truncated, not padded, so "exactly" fails there). -/
theorem score_shape_spec (max : Nat) (c : StoreContent) (m : ScoreManager)
    (ops : List ScoreOp) (h : ScoreManager.init max c = .ok m) :
    (runScoreOps ops m).high_scores.length ≤ max
    ∧ List.Sorted (· ≥ ·) (runScoreOps ops m).high_scores
    ∧ ((runScoreOps ops m).reset_high_scores).high_scores.length = max
    ∧ (c = .missing ∨ c = .unreadable ∨ c = .malformed →
        m.high_scores.length = max) := by
  obtain ⟨hi, hmax⟩ := ScoreInv_init max c m h
  obtain ⟨⟨hlen, hsort⟩, hmax'⟩ := ScoreInv_runOps ops m hi
  refine ⟨by omega, hsort, ?_, ?_⟩
  · simp [ScoreManager.reset_high_scores, hmax', hmax]
  · rintro (rfl | rfl | rfl) <;> cases h <;> simp

/-- Witness for C3 (amended): construction from a missing store, followed by
one positive update and one reset. -/
theorem score_shape_spec_witness :
    (ScoreManager.init 5 .missing
      = .ok { max_scores := 5, current_score := 0,
              high_scores := [0, 0, 0, 0, 0], stored := none })
    ∧ (runScoreOps [.update (some 3), .resetScores]
        { max_scores := 5, current_score := 0,
          high_scores := [0, 0, 0, 0, 0], stored := none }).high_scores.length ≤ 5
    ∧ List.Sorted (· ≥ ·)
        (runScoreOps [.update (some 3), .resetScores]
          { max_scores := 5, current_score := 0,
            high_scores := [0, 0, 0, 0, 0], stored := none }).high_scores
    ∧ ((runScoreOps [.update (some 3), .resetScores]
          { max_scores := 5, current_score := 0,
            high_scores := [0, 0, 0, 0, 0], stored := none }).reset_high_scores).high_scores.length = 5
    ∧ ((.missing : StoreContent) = .missing ∨ (.missing : StoreContent) = .unreadable
          ∨ (.missing : StoreContent) = .malformed →
        ({ max_scores := 5, current_score := 0,
           high_scores := [0, 0, 0, 0, 0], stored := none } : ScoreManager).high_scores.length = 5) :=
  ⟨rfl, score_shape_spec 5 .missing _ [.update (some 3), .resetScores] rfl⟩

/-- C8: `update_high_scores(s)` with `s > 0` appends `s`, re-sorts
descending, truncates to `max_scores`, persists the truncated list, and
returns whether `s` is still present in the truncated top N; with `s = 0`
(explicit, or defaulted from a zero `current_score`) it returns `False` and
changes nothing. Scenario C: from `[0,0,0,0,0]`, `update(100)` yields
`[100,0,0,0,0]` and returns `True`; `update(0)` changes nothing and returns
`False`. -/
theorem update_high_scores_spec (m : ScoreManager) (s : Int) (h : 0 < s) :
    ((m.update_high_scores (some s)).2.high_scores
        = (sortedDesc (m.high_scores ++ [s])).take m.max_scores)
    ∧ ((m.update_high_scores (some s)).1
        = decide (s ∈ (m.update_high_scores (some s)).2.high_scores))
    ∧ ((m.update_high_scores (some s)).2.stored
        = some (m.update_high_scores (some s)).2.high_scores)
    ∧ List.Sorted (· ≥ ·) (m.update_high_scores (some s)).2.high_scores
    ∧ ((m.update_high_scores (some s)).2.high_scores.length ≤ m.max_scores)
    ∧ ((m.update_high_scores (some s)).2.max_scores = m.max_scores)
    ∧ ((m.update_high_scores (some s)).2.current_score = m.current_score)
    ∧ (m.update_high_scores (some 0) = (false, m))
    ∧ (m.current_score = 0 → m.update_high_scores none = (false, m))
    ∧ (ScoreManager.update_high_scores
          { max_scores := 5, current_score := 0,
            high_scores := [0, 0, 0, 0, 0], stored := none } (some 100)
        = (true, { max_scores := 5, current_score := 0,
                   high_scores := [100, 0, 0, 0, 0],
                   stored := some [100, 0, 0, 0, 0] }))
    ∧ (ScoreManager.update_high_scores
          { max_scores := 5, current_score := 0,
            high_scores := [0, 0, 0, 0, 0], stored := none } (some 0)
        = (false, { max_scores := 5, current_score := 0,
                    high_scores := [0, 0, 0, 0, 0], stored := none })) := by
  have hlen : ((sortedDesc (m.high_scores ++ [s])).take m.max_scores).length
      ≤ m.max_scores := by
    simpa [List.length_take] using Nat.min_le_left _ _
  have htake : ((sortedDesc (m.high_scores ++ [s])).take m.max_scores).take m.max_scores
      = (sortedDesc (m.high_scores ++ [s])).take m.max_scores :=
    List.take_of_length_le hlen
  refine ⟨?_, ?_, ?_, ?_, ?_, ?_, ?_, ?_, ?_, ?_, ?_⟩
  · simp [ScoreManager.update_high_scores, h]
  · simp [ScoreManager.update_high_scores, h, htake]
  · simp [ScoreManager.update_high_scores, h]
  · simpa [ScoreManager.update_high_scores, h]
      using sorted_take (sortedDesc_sorted (m.high_scores ++ [s])) m.max_scores
  · simpa [ScoreManager.update_high_scores, h] using hlen
  · simp [ScoreManager.update_high_scores, h]
  · simp [ScoreManager.update_high_scores, h]
  · simp [ScoreManager.update_high_scores]
  · intro hc
    simp [ScoreManager.update_high_scores, hc]
  · decide
  · decide

/-- Witness for C8 with `s = 100` on the all-zero manager. -/
theorem update_high_scores_spec_witness :
    (0 : Int) < 100
    ∧ ((ScoreManager.update_high_scores
          { max_scores := 5, current_score := 0,
            high_scores := [0, 0, 0, 0, 0], stored := none } (some 100)).2.high_scores
        = (sortedDesc ([0, 0, 0, 0, 0] ++ [100])).take 5) :=
  ⟨by decide,
    (update_high_scores_spec
      { max_scores := 5, current_score := 0,
        high_scores := [0, 0, 0, 0, 0], stored := none } 100 (by decide)).1⟩

/-- The fold computing Python's `min` yields the accumulator or a member. -/
theorem foldl_min_choice (xs : List Int) :
    ∀ x : Int, xs.foldl min x = x ∨ xs.foldl min x ∈ xs := by
  induction xs with
  | nil => intro x; left; rfl
  | cons y ys ih =>
    intro x
    rcases ih (min x y) with h | h
    · rcases min_choice x y with hm | hm
      · left; simpa [List.foldl, hm] using h.trans hm
      · right
        have : ys.foldl min (min x y) = y := h.trans hm
        simp [List.foldl, this]
    · right
      simpa [List.foldl] using Or.inr h

/-- The fold computing Python's `min` is a lower bound for the accumulator
and for every member. -/
theorem foldl_min_le (xs : List Int) :
    ∀ x : Int, xs.foldl min x ≤ x ∧ ∀ a ∈ xs, xs.foldl min x ≤ a := by
  induction xs with
  | nil => intro x; exact ⟨le_refl x, by simp⟩
  | cons y ys ih =>
    intro x
    obtain ⟨h1, h2⟩ := ih (min x y)
    refine ⟨?_, ?_⟩
    · simpa [List.foldl] using h1.trans (min_le_left x y)
    · intro a ha
      rcases List.mem_cons.mp ha with rfl | ha
      · simpa [List.foldl] using h1.trans (min_le_right x a)
      · simpa [List.foldl] using h2 a ha

/-- The `pyMin` of a non-empty list is a member. -/
theorem pyMin_mem (l : List Int) (h : l ≠ []) : pyMin l ∈ l := by
  cases l with
  | nil => exact absurd rfl h
  | cons x xs =>
    rcases foldl_min_choice xs x with h1 | h1
    · simp [pyMin, h1]
    · simp [pyMin, List.mem_cons]
      right
      exact h1

/-- The `pyMin` is a lower bound of the list. -/
theorem pyMin_le (l : List Int) (a : Int) (ha : a ∈ l) : pyMin l ≤ a := by
  cases l with
  | nil => cases ha
  | cons x xs =>
    obtain ⟨h1, h2⟩ := foldl_min_le xs x
    rcases List.mem_cons.mp ha with rfl | hm
    · exact h1
    · exact h2 a hm

/-- C9: for a manager with non-empty `high_scores`, `is_high_score(s)` is
`True` exactly when `s` exceeds the minimum of `high_scores` or the list
still contains a zero entry (`pyMin` really is the minimum: a member and a
lower bound); on a fresh all-zero list every positive score is high. -/
theorem is_high_score_spec (m : ScoreManager) (s : Int) (h : m.high_scores ≠ []) :
    (m.is_high_score (some s) = true ↔
        pyMin m.high_scores < s ∨ (0 : Int) ∈ m.high_scores)
    ∧ pyMin m.high_scores ∈ m.high_scores
    ∧ (∀ a ∈ m.high_scores, pyMin m.high_scores ≤ a)
    ∧ (m.high_scores = List.replicate m.max_scores 0 → 0 < m.max_scores →
        0 < s → m.is_high_score (some s) = true) := by
  refine ⟨?_, pyMin_mem _ h, fun a ha => pyMin_le _ a ha, ?_⟩
  · simp [ScoreManager.is_high_score]
  · intro he hmax _
    have h0 : (0 : Int) ∈ m.high_scores := by
      rw [he]
      exact List.mem_replicate.mpr ⟨by omega, rfl⟩
    simp [ScoreManager.is_high_score, h0]

/-- Witness for C9 on the fresh all-zero manager and score 1. -/
theorem is_high_score_spec_witness :
    ({ max_scores := 5, current_score := 0,
       high_scores := [0, 0, 0, 0, 0], stored := none } : ScoreManager).high_scores ≠ []
    ∧ (({ max_scores := 5, current_score := 0,
          high_scores := [0, 0, 0, 0, 0], stored := none } : ScoreManager).is_high_score
          (some 1) = true ↔
        pyMin [0, 0, 0, 0, 0] < 1 ∨ (0 : Int) ∈ ([0, 0, 0, 0, 0] : List Int))
    ∧ pyMin [0, 0, 0, 0, 0] ∈ ([0, 0, 0, 0, 0] : List Int)
    ∧ (∀ a ∈ ([0, 0, 0, 0, 0] : List Int), pyMin [0, 0, 0, 0, 0] ≤ a)
    ∧ (([0, 0, 0, 0, 0] : List Int) = List.replicate 5 0 → 0 < 5 → (0 : Int) < 1 →
        ({ max_scores := 5, current_score := 0,
           high_scores := [0, 0, 0, 0, 0], stored := none } : ScoreManager).is_high_score
          (some 1) = true) :=
  ⟨by decide,
    is_high_score_spec
      { max_scores := 5, current_score := 0,
        high_scores := [0, 0, 0, 0, 0], stored := none } 1 (by decide)⟩

/-- The `_game_over()` transitions the FSM to GAME_OVER and touches neither
`current_score`, nor `speed`, nor the fruit, nor the snake. -/
theorem game_over_props (g : GameController) :
    (g.game_over).state_manager.current_state = .game_over
    ∧ (g.game_over).score_manager.current_score = g.score_manager.current_score
    ∧ (g.game_over).speed = g.speed
    ∧ (g.game_over).fruit = g.fruit
    ∧ (g.game_over).snake = g.snake := by
  refine ⟨?_, ?_, rfl, rfl, rfl⟩
  · unfold GameController.game_over GameStateManager.set_state
    split
    · rfl
    · next hc =>
      simp only [ne_eq, not_not] at hc
      exact hc.symm
  · by_cases hc : g.score_manager.current_score > 0
    · simp [GameController.game_over, ScoreManager.update_high_scores, hc]
    · simp [GameController.game_over, ScoreManager.update_high_scores, hc]

/-- C2: on a death tick — the moved snake hits a wall or itself — the
controller stops the step in GAME_OVER: the prospective head cell is
computed from `next_direction` and fruit occupancy checked there before the
snake is mutated, the snake moves with `grow = will_eat_fruit`, and since
`_eat_fruit` is never reached, `current_score`, `speed` and the fruit
position are all unchanged from before the step. -/
theorem controller_death_tick (g : GameController) (e : Nat → Nat × Nat) (fuel : Nat)
    (h : g.moved_snake.check_wall_collision (GRID_WIDTH : Int) (GRID_HEIGHT : Int) = true
       ∨ g.moved_snake.check_self_collision = true) :
    ∃ g', g.move_snake e fuel = some g'
      ∧ g'.state_manager.current_state = .game_over
      ∧ g'.score_manager.current_score = g.score_manager.current_score
      ∧ g'.speed = g.speed
      ∧ g'.fruit = g.fruit
      ∧ g'.snake = (g.snake.move (g.fruit.is_eaten_by g.next_head_pos)).1 := by
  have hp := game_over_props { g with snake := g.moved_snake }
  refine ⟨({ g with snake := g.moved_snake } : GameController).game_over, ?_,
    hp.1, hp.2.1, hp.2.2.1, hp.2.2.2.1, ?_⟩
  · by_cases hw : g.moved_snake.check_wall_collision (GRID_WIDTH : Int) (GRID_HEIGHT : Int) = true
    · simp [GameController.move_snake, hw]
    · have hs : g.moved_snake.check_self_collision = true := h.resolve_left hw
      simp [GameController.move_snake, hw, hs]
  · exact hp.2.2.2.2

/-- Witness for C2: a snake at the right edge moving RIGHT into the wall on
the 40×30 grid. -/
theorem controller_death_tick_witness :
    (({ snake := ⟨[(39, 5), (38, 5)], .right, .right⟩
        fruit := ⟨40, 30, (5, 5)⟩
        state_manager := ⟨.playing, none⟩
        score_manager := ⟨5, 0, [0, 0, 0, 0, 0], none⟩
        speed := 200 } : GameController).moved_snake.check_wall_collision
          (GRID_WIDTH : Int) (GRID_HEIGHT : Int) = true
      ∨ ({ snake := ⟨[(39, 5), (38, 5)], .right, .right⟩
           fruit := ⟨40, 30, (5, 5)⟩
           state_manager := ⟨.playing, none⟩
           score_manager := ⟨5, 0, [0, 0, 0, 0, 0], none⟩
           speed := 200 } : GameController).moved_snake.check_self_collision = true)
    ∧ ∃ g', ({ snake := ⟨[(39, 5), (38, 5)], .right, .right⟩
               fruit := ⟨40, 30, (5, 5)⟩
               state_manager := ⟨.playing, none⟩
               score_manager := ⟨5, 0, [0, 0, 0, 0, 0], none⟩
               speed := 200 } : GameController).move_snake (fun _ => (0, 0)) 0 = some g'
        ∧ g'.state_manager.current_state = .game_over
        ∧ g'.score_manager.current_score
            = ({ snake := ⟨[(39, 5), (38, 5)], .right, .right⟩
                 fruit := ⟨40, 30, (5, 5)⟩
                 state_manager := ⟨.playing, none⟩
                 score_manager := ⟨5, 0, [0, 0, 0, 0, 0], none⟩
                 speed := 200 } : GameController).score_manager.current_score
        ∧ g'.speed
            = ({ snake := ⟨[(39, 5), (38, 5)], .right, .right⟩
                 fruit := ⟨40, 30, (5, 5)⟩
                 state_manager := ⟨.playing, none⟩
                 score_manager := ⟨5, 0, [0, 0, 0, 0, 0], none⟩
                 speed := 200 } : GameController).speed
        ∧ g'.fruit
            = ({ snake := ⟨[(39, 5), (38, 5)], .right, .right⟩
                 fruit := ⟨40, 30, (5, 5)⟩
                 state_manager := ⟨.playing, none⟩
                 score_manager := ⟨5, 0, [0, 0, 0, 0, 0], none⟩
                 speed := 200 } : GameController).fruit
        ∧ g'.snake
            = (({ snake := ⟨[(39, 5), (38, 5)], .right, .right⟩
                  fruit := ⟨40, 30, (5, 5)⟩
                  state_manager := ⟨.playing, none⟩
                  score_manager := ⟨5, 0, [0, 0, 0, 0, 0], none⟩
                  speed := 200 } : GameController).snake.move
                (({ snake := ⟨[(39, 5), (38, 5)], .right, .right⟩
                    fruit := ⟨40, 30, (5, 5)⟩
                    state_manager := ⟨.playing, none⟩
                    score_manager := ⟨5, 0, [0, 0, 0, 0, 0], none⟩
                    speed := 200 } : GameController).fruit.is_eaten_by
                  ({ snake := ⟨[(39, 5), (38, 5)], .right, .right⟩
                     fruit := ⟨40, 30, (5, 5)⟩
                     state_manager := ⟨.playing, none⟩
                     score_manager := ⟨5, 0, [0, 0, 0, 0, 0], none⟩
                     speed := 200 } : GameController).next_head_pos)).1 :=
  ⟨Or.inl (by decide),
    controller_death_tick
      { snake := ⟨[(39, 5), (38, 5)], .right, .right⟩
        fruit := ⟨40, 30, (5, 5)⟩
        state_manager := ⟨.playing, none⟩
        score_manager := ⟨5, 0, [0, 0, 0, 0, 0], none⟩
        speed := 200 } (fun _ => (0, 0)) 0 (Or.inl (by decide))⟩

end SnakeGame

